import Mathlib

/-!
Verification of the mogukefu message-routing core.

Shallow embedding of the Python sources under `src/`:
`config.py`, `keyword_matcher.py`, `llm_client.py`, `intent_classifier.py`,
`reply_manager.py`, `message_handler.py`, `bot.py`.  Each definition carries a
doc comment naming the source function it embeds.  Strings are modelled as
Lean strings (sequences of code points, matching Python `str` semantics for
`len`, `in`, `startswith`); Python `dict`s built by in-order insertion are
modelled as association lists with a last-binding-wins lookup; Python `None`
is `Option.none`; exceptions of the fallible boundaries are explicit sum
cases.
-/

namespace Mogukefu

/-- Python `d.get(key)` on a dict built by inserting the listed bindings in
order: the LAST binding for a key wins. -/
def dictGet {α : Type} : List (String × α) → String → Option α
  | [], _ => none
  | (k, v) :: rest, key =>
    match dictGet rest key with
    | some w => some w
    | none => if k = key then some v else none

/-- Python truthiness of an optional string: `None` and `""` are falsy,
every other string is truthy. -/
def strTruthy : Option String → Bool
  | none => false
  | some s => s != ""

/-- `l` starts with `pre` (Python `str.startswith`, on code points). -/
def startsWithChars : List Char → List Char → Bool
  | _, [] => true
  | [], _ :: _ => false
  | a :: as, b :: bs => a == b && startsWithChars as bs

/-- `needle` occurs contiguously in the second list (Python `needle in hay`
for strings, on code points): it is a prefix of some suffix. -/
def containsChars (needle : List Char) : List Char → Bool
  | [] => startsWithChars [] needle
  | c :: rest => startsWithChars (c :: rest) needle || containsChars needle rest

/-- Python `kw in text` for strings. -/
def strContains (text kw : String) : Bool :=
  containsChars kw.data text.data

/-- Python `str.strip()`: drop whitespace from both ends (used only to state
properties that speak about the trimmed message). -/
def pyStrip (s : String) : String :=
  ⟨((s.data.dropWhile Char.isWhitespace).reverse.dropWhile Char.isWhitespace).reverse⟩

/-- `IntentConfig` dataclass, src/config.py lines 49-55. -/
structure IntentConfig where
  tag : String
  description : String
  reply : String
deriving DecidableEq

/-- `KeywordConfig` dataclass, src/config.py lines 58-63. -/
structure KeywordConfig where
  keyword : String
  reply : String
deriving DecidableEq

/-- `FAQConfig` dataclass, src/config.py lines 66-72. -/
structure FAQConfig where
  faq_id : String
  question : String
  answer : String
deriving DecidableEq

/-- `ClassifyResult` dataclass, src/llm_client.py lines 17-23. -/
structure ClassifyResult where
  intent : String
  keyword : Option String := none
  faq_id : Option String := none
deriving DecidableEq

/-- `VALID_INTENT_TAGS`, src/config.py line 76 (a Python set; only membership
is ever used, so a list is an adequate model). -/
def VALID_INTENT_TAGS : List String :=
  ["TUTORIAL", "ISSUE", "SERVICE", "IGNORE", "FAQ"]

/-- The loaded state of `ConfigStore` (src/config.py lines 79-93) that the
message pipeline reads: the two feature toggles of `BotConfig` and the three
rule tables.  The derived reply dicts `_intent_reply_map`,
`_keyword_reply_map` and `_faq_reply_map` are recomputed from the lists by
`dictGet`, which reproduces the in-order dict insertion of the `_parse_*`
methods (last binding for a duplicate key wins). -/
structure ConfigStore where
  keyword_reply_enabled : Bool
  ai_reply_enabled : Bool
  intents : List IntentConfig
  keywords : List KeywordConfig
  faqs : List FAQConfig

/-- `ConfigStore.get_reply_by_intent`, src/config.py lines 305-314. -/
def ConfigStore.get_reply_by_intent (c : ConfigStore) (tag : String) : Option String :=
  dictGet (c.intents.map fun i => (i.tag, i.reply)) tag

/-- `ConfigStore.get_reply_by_keyword`, src/config.py lines 316-325. -/
def ConfigStore.get_reply_by_keyword (c : ConfigStore) (kw : String) : Option String :=
  dictGet (c.keywords.map fun k => (k.keyword, k.reply)) kw

/-- `ConfigStore.get_reply_by_faq_id`, src/config.py lines 327-336. -/
def ConfigStore.get_reply_by_faq_id (c : ConfigStore) (fid : String) : Option String :=
  dictGet (c.faqs.map fun f => (f.faq_id, f.answer)) fid

/-- `KeywordMatcher.match`, src/keyword_matcher.py lines 26-41: scan the
configured keyword list in order, return the first keyword contained in the
text, else `None`. -/
def keywordMatch : List KeywordConfig → String → Option String
  | [], _ => none
  | kw :: rest, text =>
    if strContains text kw.keyword then some kw.keyword else keywordMatch rest text

/-- A decoded JSON value: the possible results of Python `json.loads`. -/
inductive Json where
  | null
  | bool (b : Bool)
  | num (q : ℚ)
  | str (s : String)
  | arr (elems : List Json)
  | obj (fields : List (String × Json))

/-- The Python idiom `x if isinstance(x, str) else None` applied to an
optional decoded field (src/llm_client.py lines 148-156): a present non-string
value is discarded, not rejected. -/
def asStr : Option Json → Option String
  | some (Json.str s) => some s
  | _ => none

/-- The dict branch of `LLMClient._parse_response` (src/llm_client.py lines
133-158): `data.get("intent", "IGNORE")` then the isinstance and
`VALID_INTENT_TAGS` checks, then optional extraction of `keyword` and
`faq_id`. -/
def parseObj (fields : List (String × Json)) : ClassifyResult :=
  match (dictGet fields "intent").getD (Json.str "IGNORE") with
  | Json.str intent =>
    if intent ∈ VALID_INTENT_TAGS then
      { intent := intent
        keyword := asStr (dictGet fields "keyword")
        faq_id := asStr (dictGet fields "faq_id") }
    else { intent := "IGNORE" }
  | _ => { intent := "IGNORE" }

/-- `LLMClient._parse_response` (src/llm_client.py lines 117-162) composed
with the outcome of `json.loads(response_text.strip())`: `none` stands for a
`JSONDecodeError` (including the empty text produced when the response
content is `None`), `some j` for a successful decode to `j`. -/
def parse_response : Option Json → ClassifyResult
  | none => { intent := "IGNORE" }
  | some (Json.obj fields) => parseObj fields
  | some _ => { intent := "IGNORE" }

/-- The observable behaviour of the underlying LLM call inside
`LLMClient.classify` (src/llm_client.py lines 185-202): either the awaited
call (or anything else in the `try` block) raises some exception, or it
returns and its response text decodes to the given `Option Json`. -/
inductive LLMBehaviour where
  | raise
  | respond (decoded : Option Json)

/-- `LLMClient.classify`, src/llm_client.py lines 164-202: any exception is
caught and converted to `ClassifyResult(intent="IGNORE")`; a returned
response is parsed by `_parse_response`. -/
def LLMClient.classify (behaviour : LLMBehaviour) : ClassifyResult :=
  match behaviour with
  | LLMBehaviour.raise => { intent := "IGNORE" }
  | LLMBehaviour.respond decoded => parse_response decoded

/-- `IntentClassifier.classify`, src/intent_classifier.py lines 30-72: reads
the tables and delegates to `LLMClient.classify`; its own `try/except` also
collapses any exception to `ClassifyResult(intent="IGNORE", keyword=None,
faq_id=None)`, the same value the inner boundary produces, so a single
`raise` behaviour case covers both except-blocks. -/
def IntentClassifier.classify (llm : String → LLMBehaviour) (message : String) : ClassifyResult :=
  LLMClient.classify (llm message)

/-- `ReplyManager.get_reply`, src/reply_manager.py lines 28-74.  Note the
Python truthiness tests: `if result.faq_id:` and `if result.keyword:` are
false for `None` and for `""`; `if faq_reply is not None:` and
`if keyword_reply is not None:` are `Option.isSome` tests; `if intent_reply:`
is again truthiness, so an empty intent-level reply yields silence. -/
def ReplyManager.get_reply (config : ConfigStore) (result : ClassifyResult) : Option String :=
  if result.intent = "IGNORE" then none
  else if result.intent = "FAQ" ∧ strTruthy result.faq_id = true then
    config.get_reply_by_faq_id (result.faq_id.getD "")
  else
    match (if strTruthy result.keyword then
            config.get_reply_by_keyword (result.keyword.getD "")
           else none) with
    | some keyword_reply => some keyword_reply
    | none =>
      match config.get_reply_by_intent result.intent with
      | some intent_reply => if intent_reply = "" then none else some intent_reply
      | none => none

/-- `HandleResult` dataclass, src/message_handler.py lines 18-25. -/
structure HandleResult where
  should_reply : Bool
  reply_text : Option String := none
  matched_keyword : Option String := none
  intent : Option String := none
deriving DecidableEq

/-- The value returned by `MessageHandler.handle` together with which
collaborators the call invoked: `matcherCalled` records whether
`KeywordMatcher.match` ran, `classifierCalled` whether
`IntentClassifier.classify` ran. -/
structure HandleTrace where
  result : HandleResult
  matcherCalled : Bool
  classifierCalled : Bool
deriving DecidableEq

/-- `MessageHandler.should_ignore_message`, src/message_handler.py lines
61-84: drop the message when `len(text) < MIN_MESSAGE_LENGTH` (= 2) or when
`text.startswith("/")`. -/
def should_ignore_message (text : String) : Bool :=
  if text.length < 2 then true
  else if startsWithChars text.data "/".data then true
  else false

/-- `MessageHandler.handle`, src/message_handler.py lines 86-151.  The
classifier collaborator is modelled as a total function
`classify : String → ClassifyResult` (total by the Classification Port
contract, `IntentClassifier.classify`).  Control flow mirrors the source:
filter, both-toggles-off check, keyword phase with its truthiness test
`if matched_keyword:`, AI phase with its truthiness test `if reply:`. -/
def handle (config : ConfigStore) (classify : String → ClassifyResult)
    (text : String) : HandleTrace :=
  if should_ignore_message text then
    { result := { should_reply := false }, matcherCalled := false, classifierCalled := false }
  else if config.keyword_reply_enabled = false ∧ config.ai_reply_enabled = false then
    { result := { should_reply := false }, matcherCalled := false, classifierCalled := false }
  else
    let matched : Option String :=
      if config.keyword_reply_enabled then keywordMatch config.keywords text else none
    if strTruthy matched then
      { result :=
          { should_reply := true
            reply_text := config.get_reply_by_keyword (matched.getD "")
            matched_keyword := matched }
        matcherCalled := true
        classifierCalled := false }
    else if config.ai_reply_enabled then
      let cres := classify text
      let reply := ReplyManager.get_reply config cres
      if strTruthy reply then
        { result :=
            { should_reply := true
              reply_text := reply
              matched_keyword := cres.keyword
              intent := some cres.intent }
          matcherCalled := config.keyword_reply_enabled
          classifierCalled := true }
      else
        { result := { should_reply := false, intent := some cres.intent }
          matcherCalled := config.keyword_reply_enabled
          classifierCalled := true }
    else
      { result := { should_reply := false }
        matcherCalled := config.keyword_reply_enabled
        classifierCalled := false }

/-- One iteration body of `ConfigStore._parse_keywords` (src/config.py lines
229-243): the entry must be a dict, `keyword` must be a truthy string
(`if not keyword or not isinstance(keyword, str): raise`), `reply` defaults
to `""` and must be a string. -/
def parseKeywordEntry (j : Json) : Except String KeywordConfig :=
  match j with
  | Json.obj fields =>
    match dictGet fields "keyword" with
    | some (Json.str k) =>
      if k = "" then Except.error "keyword must be a non-empty string"
      else
        match (dictGet fields "reply").getD (Json.str "") with
        | Json.str r => Except.ok { keyword := k, reply := r }
        | _ => Except.error "reply must be a string"
    | _ => Except.error "keyword must be a non-empty string"
  | _ => Except.error "entry must be a dict"

/-- `ConfigStore._parse_keywords`, src/config.py lines 220-243, applied to a
decoded `keywords` list: entries are parsed in order and the first bad entry
aborts the whole load (fail-fast, the raised `ConfigError` is the `error`
case). -/
def parse_keywords (entries : List Json) : Except String (List KeywordConfig) :=
  entries.mapM parseKeywordEntry

/-- The outcome of one `TelegramBot._send_reply_with_retry` call: how many
send attempts ran, whether one of them succeeded, and the backoff delays (in
seconds) slept between attempts, in order. -/
structure RetryOutcome where
  attempts : Nat
  success : Bool
  waits : List ℚ
deriving DecidableEq

/-- The `for attempt in range(max_retries + 1)` loop of
`TelegramBot._send_reply_with_retry` (src/bot.py lines 191-219), entered at
loop index `attempt` with `fuel` iterations left.  `send i = true` means the
`message.reply_text` call of attempt `i` returns, `false` that it raises; on
failure the loop sleeps `retry_delay * 2 ** attempt` iff `attempt <
max_retries`. -/
def runRetry (send : Nat → Bool) (retry_delay : ℚ) (max_retries : Nat)
    (attempt : Nat) : Nat → RetryOutcome
  | 0 => { attempts := 0, success := false, waits := [] }
  | fuel + 1 =>
    if send attempt then { attempts := 1, success := true, waits := [] }
    else
      let rest := runRetry send retry_delay max_retries (attempt + 1) fuel
      { attempts := rest.attempts + 1
        success := rest.success
        waits := (if attempt < max_retries then [retry_delay * 2 ^ attempt] else [])
                   ++ rest.waits }

/-- `TelegramBot._send_reply_with_retry`, src/bot.py lines 168-222 (defaults
`max_retries = 2`, `retry_delay = 0.5`).  After the loop a final failure is
only logged (`logger.error`), never re-raised: the function always returns,
which the model expresses by being total; `success = false` in the outcome is
exactly the logged-and-swallowed terminal failure. -/
def send_reply_with_retry (send : Nat → Bool) (max_retries : Nat)
    (retry_delay : ℚ) : RetryOutcome :=
  runRetry send retry_delay max_retries 0 (max_retries + 1)

/-! ### Supporting lemmas -/

/-- A key that is the first component of some listed entry is found by
`dictGet`. -/
theorem dictGet_mem_keys {α : Type} (entries : List (String × α)) (key : String)
    (h : ∃ p ∈ entries, p.1 = key) : ∃ v, dictGet entries key = some v := by
  induction entries with
  | nil => simp at h
  | cons e rest ih =>
    rcases hrest : dictGet rest key with _ | w
    · rcases h with ⟨p, hp, hk⟩
      rcases List.mem_cons.mp hp with heq | hmem
      · refine ⟨e.2, ?_⟩
        rw [heq] at hk
        simp [dictGet, hrest, hk]
      · rcases ih ⟨p, hmem, hk⟩ with ⟨v, hv⟩
        rw [hrest] at hv
        cases hv
    · exact ⟨w, by simp [dictGet, hrest]⟩

/-- A successful `KeywordMatcher.match` returns the keyword of a configured
rule. -/
theorem keywordMatch_mem (kws : List KeywordConfig) (text : String) (kw : String)
    (h : keywordMatch kws text = some kw) : ∃ c ∈ kws, c.keyword = kw := by
  induction kws with
  | nil => exact absurd h (by simp [keywordMatch])
  | cons c rest ih =>
    simp only [keywordMatch] at h
    split at h
    · exact ⟨c, by simp, Option.some.inj h⟩
    · obtain ⟨c', hmem, hk⟩ := ih h
      exact ⟨c', by simp [hmem], hk⟩

/-- `KeywordMatcher.match` misses exactly when no configured keyword occurs
in the text. -/
theorem keywordMatch_eq_none_iff (kws : List KeywordConfig) (text : String) :
    keywordMatch kws text = none ↔ ∀ c ∈ kws, strContains text c.keyword = false := by
  induction kws with
  | nil => simp [keywordMatch]
  | cons c rest ih =>
    simp only [keywordMatch]
    cases hc : strContains text c.keyword <;> simp [hc, ih]

/-- A non-empty keyword never occurs in the empty text. -/
theorem strContains_empty_text (k : String) (hk : k ≠ "") :
    strContains "" k = false := by
  have hd : k.data ≠ [] := by
    intro h
    apply hk
    cases k with
    | mk data =>
      simp only [String.data] at h
      rw [h]
  rcases hl : k.data with _ | ⟨c, cs⟩
  · exact absurd hl hd
  · show containsChars k.data [] = false
    rw [hl]
    rfl

/-! ### Claims -/

/-- C7: IGNORE is absolute in the resolver: whenever the classification
result's intent is IGNORE, `ReplyManager.get_reply` returns silence (`none`),
regardless of what keyword or faq_id the result carries, even if those values
are present in the keyword or FAQ tables. -/
theorem ignore_is_absolute (config : ConfigStore) (result : ClassifyResult)
    (h : result.intent = "IGNORE") :
    ReplyManager.get_reply config result = none := by
  simp [ReplyManager.get_reply, h]

/-- Witness for C7: an IGNORE result whose keyword and faq_id are both
present in the tables is still silenced. -/
theorem ignore_is_absolute_witness :
    ReplyManager.get_reply
      ⟨true, true, [⟨"TUTORIAL", "", "I"⟩], [⟨"hi", "HELLO"⟩], [⟨"f1", "q", "a"⟩]⟩
      { intent := "IGNORE", keyword := some "hi", faq_id := some "f1" } = none :=
  ignore_is_absolute _ _ rfl

/-- C3: resolver FAQ precedence fails closed: for a result with intent FAQ
and a non-empty faq_id, a faq_id present in the FAQ table yields exactly that
FAQ's configured answer, and a faq_id absent from the table yields silence —
never the keyword reply nor the FAQ intent-level reply. -/
theorem faq_fail_closed (config : ConfigStore) (result : ClassifyResult) (fid : String)
    (hintent : result.intent = "FAQ") (hfid : result.faq_id = some fid)
    (hne : fid ≠ "") :
    (∀ ans, config.get_reply_by_faq_id fid = some ans →
      ReplyManager.get_reply config result = some ans)
    ∧ (config.get_reply_by_faq_id fid = none →
      ReplyManager.get_reply config result = none) := by
  have ht : strTruthy (some fid) = true := by simp [strTruthy, hne]
  constructor
  · intro ans hans
    simp [ReplyManager.get_reply, hintent, hfid, ht, hans]
  · intro hnone
    simp [ReplyManager.get_reply, hintent, hfid, ht, hnone]

/-- Witness for C3: with FAQ table `{f1 ↦ THE-ANSWER}` (and a keyword reply
and an FAQ intent-level reply both configured), faq_id `f1` returns the
FAQ answer and the unknown faq_id `pricing` returns silence. -/
theorem faq_fail_closed_witness :
    ReplyManager.get_reply
      ⟨true, true, [⟨"FAQ", "", "F-REPLY"⟩], [⟨"kw", "K-REPLY"⟩], [⟨"f1", "q", "THE-ANSWER"⟩]⟩
      { intent := "FAQ", keyword := some "kw", faq_id := some "f1" } = some "THE-ANSWER"
    ∧ ReplyManager.get_reply
      ⟨true, true, [⟨"FAQ", "", "F-REPLY"⟩], [⟨"kw", "K-REPLY"⟩], [⟨"f1", "q", "THE-ANSWER"⟩]⟩
      { intent := "FAQ", keyword := some "kw", faq_id := some "pricing" } = none :=
  ⟨(faq_fail_closed _ _ "f1" rfl rfl (by decide)).1 "THE-ANSWER" rfl,
   (faq_fail_closed _ _ "pricing" rfl rfl (by decide)).2 rfl⟩

/-- C8: resolver keyword-over-intent precedence: when the intent is not
IGNORE, the result is not a resolved FAQ case, and the result's keyword is
non-empty and present in the keyword table, the resolver returns that
keyword's configured reply — even when a reply is also configured for the
result's intent (no hypothesis below excludes that). -/
theorem keyword_over_intent (config : ConfigStore) (result : ClassifyResult)
    (kw r : String)
    (hni : result.intent ≠ "IGNORE")
    (hnf : result.intent ≠ "FAQ" ∨ result.faq_id = none)
    (hkw : result.keyword = some kw) (hkne : kw ≠ "")
    (hr : config.get_reply_by_keyword kw = some r) :
    ReplyManager.get_reply config result = some r := by
  have hfaq : ¬(result.intent = "FAQ" ∧ strTruthy result.faq_id = true) := by
    rcases hnf with h | h
    · exact fun hc => h hc.1
    · intro hc
      rw [h] at hc
      exact absurd hc.2 (by simp [strTruthy])
  have hkt : strTruthy (some kw) = true := by simp [strTruthy, hkne]
  simp [ReplyManager.get_reply, hni, hfaq, hkw, hkt, hr]

/-- Witness for C8: intent TUTORIAL has its own configured reply `I-REPLY`,
yet the classifier-supplied keyword `kw` wins with `K-REPLY`. -/
theorem keyword_over_intent_witness :
    ReplyManager.get_reply
      ⟨true, true, [⟨"TUTORIAL", "", "I-REPLY"⟩], [⟨"kw", "K-REPLY"⟩], []⟩
      { intent := "TUTORIAL", keyword := some "kw", faq_id := none } = some "K-REPLY" :=
  keyword_over_intent _ _ "kw" "K-REPLY" (by decide) (Or.inl (by decide))
    rfl (by decide) rfl

/-- Every parse result carries one of the five valid intent tags. -/
theorem parse_response_intent_valid (decoded : Option Json) :
    (parse_response decoded).intent ∈ VALID_INTENT_TAGS := by
  unfold parse_response
  split
  · decide
  · unfold parseObj
    split
    · split
      · simpa using by assumption
      · decide
    · decide
  · decide

/-- C1: the Classification Port never raises to its caller: for every message
text and any behaviour of the underlying LLM call (exception of any kind, or
a response decoding to anything), `IntentClassifier.classify` returns a
`ClassifyResult` whose intent is one of the five valid tags; a raised
exception and an undecodable payload are both converted to the result
`{intent := IGNORE}`.  Totality of the Lean function is the model of "never
throws". -/
theorem classifier_never_raises (llm : String → LLMBehaviour) (message : String) :
    (IntentClassifier.classify llm message).intent ∈ VALID_INTENT_TAGS
    ∧ (llm message = LLMBehaviour.raise →
        IntentClassifier.classify llm message = { intent := "IGNORE" })
    ∧ (llm message = LLMBehaviour.respond none →
        IntentClassifier.classify llm message = { intent := "IGNORE" }) := by
  refine ⟨?_, ?_, ?_⟩
  · unfold IntentClassifier.classify LLMClient.classify
    rcases llm message with _ | decoded
    · decide
    · exact parse_response_intent_valid decoded
  · intro h
    simp [IntentClassifier.classify, LLMClient.classify, h]
  · intro h
    simp [IntentClassifier.classify, LLMClient.classify, h, parse_response]

/-- Witness for C1: an LLM call that always raises still produces a valid
tag, namely the IGNORE result. -/
theorem classifier_never_raises_witness :
    (IntentClassifier.classify (fun _ => LLMBehaviour.raise) "hello").intent ∈ VALID_INTENT_TAGS
    ∧ IntentClassifier.classify (fun _ => LLMBehaviour.raise) "hello"
        = { intent := "IGNORE" } :=
  ⟨(classifier_never_raises (fun _ => LLMBehaviour.raise) "hello").1,
   (classifier_never_raises (fun _ => LLMBehaviour.raise) "hello").2.1 rfl⟩

/-- C4 counterexample: a decoded record with NO `intent` field but a valid
`keyword` field does not parse to the bare result `{intent := IGNORE}`: the
code defaults the missing intent to "IGNORE" and then still extracts the
keyword, so the claim's "parsing yields {intent: IGNORE}" fails for the
absent-intent case. -/
theorem parse_response_absent_intent_cx :
    parse_response (some (Json.obj [("keyword", Json.str "kw1")]))
      = { intent := "IGNORE", keyword := some "kw1", faq_id := none }
    ∧ parse_response (some (Json.obj [("keyword", Json.str "kw1")]))
      ≠ { intent := "IGNORE", keyword := none, faq_id := none } := by
  exact ⟨rfl, by decide⟩

/-- C4 (amended): (1) an undecodable payload yields `{intent := IGNORE}`;
(2) a payload that is not a structured record yields `{intent := IGNORE}`;
(3) an `intent` field present but not a text value yields `{intent :=
IGNORE}`; (4) an `intent` field that is text but not one of the five tags
yields `{intent := IGNORE}`; (5) an ABSENT `intent` field defaults to the
valid tag IGNORE (keyword and faq_id are still extracted, so only the
resulting intent is IGNORE); (6) a valid intent tag is kept together with the
extracted optional fields; (7)/(8) a `keyword` or `faq_id` field present but
not a text value is treated as absent without rejecting the rest of the
result. -/
theorem parse_response_rules (fields : List (String × Json)) :
    parse_response none = { intent := "IGNORE" }
    ∧ (∀ j : Json, (∀ fs, j ≠ Json.obj fs) →
        parse_response (some j) = { intent := "IGNORE" })
    ∧ (∀ j, dictGet fields "intent" = some j → (∀ s, j ≠ Json.str s) →
        parse_response (some (Json.obj fields)) = { intent := "IGNORE" })
    ∧ (∀ s, dictGet fields "intent" = some (Json.str s) → s ∉ VALID_INTENT_TAGS →
        parse_response (some (Json.obj fields)) = { intent := "IGNORE" })
    ∧ (dictGet fields "intent" = none →
        (parse_response (some (Json.obj fields))).intent = "IGNORE")
    ∧ (∀ s, dictGet fields "intent" = some (Json.str s) → s ∈ VALID_INTENT_TAGS →
        parse_response (some (Json.obj fields)) =
          { intent := s
            keyword := asStr (dictGet fields "keyword")
            faq_id := asStr (dictGet fields "faq_id") })
    ∧ (∀ j, dictGet fields "keyword" = some j → (∀ s, j ≠ Json.str s) →
        (parse_response (some (Json.obj fields))).keyword = none)
    ∧ (∀ j, dictGet fields "faq_id" = some j → (∀ s, j ≠ Json.str s) →
        (parse_response (some (Json.obj fields))).faq_id = none) := by
  have hasStr : ∀ j : Json, (∀ s, j ≠ Json.str s) → asStr (some j) = none := by
    intro j hj
    cases j with
    | str s => exact absurd rfl (hj s)
    | null => rfl
    | bool b => rfl
    | num q => rfl
    | arr es => rfl
    | obj fs => rfl
  refine ⟨rfl, ?_, ?_, ?_, ?_, ?_, ?_, ?_⟩
  · intro j hj
    cases j with
    | obj fs => exact absurd rfl (hj fs)
    | null => rfl
    | bool b => rfl
    | num q => rfl
    | str s => rfl
    | arr es => rfl
  · intro j hj hns
    have : (dictGet fields "intent").getD (Json.str "IGNORE") = j := by simp [hj]
    cases j with
    | str s => exact absurd rfl (hns s)
    | null => simp [parse_response, parseObj, this]
    | bool b => simp [parse_response, parseObj, this]
    | num q => simp [parse_response, parseObj, this]
    | arr es => simp [parse_response, parseObj, this]
    | obj fs => simp [parse_response, parseObj, this]
  · intro s hs hmem
    have : (dictGet fields "intent").getD (Json.str "IGNORE") = Json.str s := by simp [hs]
    simp [parse_response, parseObj, this, hmem]
  · intro h
    have hd : (dictGet fields "intent").getD (Json.str "IGNORE") = Json.str "IGNORE" := by
      simp [h]
    have hmem : ("IGNORE" : String) ∈ VALID_INTENT_TAGS := by decide
    show (parseObj fields).intent = "IGNORE"
    unfold parseObj
    rw [hd]
    simp [hmem]
  · intro s hs hmem
    have : (dictGet fields "intent").getD (Json.str "IGNORE") = Json.str s := by simp [hs]
    simp [parse_response, parseObj, this, hmem]
  · intro j hj hns
    show (parseObj fields).keyword = none
    unfold parseObj
    split
    · split
      · simp [hj, hasStr j hns]
      · rfl
    · rfl
  · intro j hj hns
    show (parseObj fields).faq_id = none
    unfold parseObj
    split
    · split
      · simp [hj, hasStr j hns]
      · rfl
    · rfl

/-- Witness for C4: an unrecognized tag collapses to IGNORE; a numeric
`keyword` next to a valid tag is discarded while the tag survives. -/
theorem parse_response_rules_witness :
    parse_response (some (Json.obj [("intent", Json.str "WRONG")]))
      = { intent := "IGNORE" }
    ∧ (parse_response (some (Json.obj [("intent", Json.str "ISSUE"), ("keyword", Json.num 3)]))).keyword
      = none
    ∧ parse_response (some (Json.obj [("intent", Json.str "ISSUE"), ("keyword", Json.num 3)]))
      = { intent := "ISSUE", keyword := none, faq_id := none } :=
  ⟨(parse_response_rules [("intent", Json.str "WRONG")]).2.2.2.1 "WRONG" rfl (by decide),
   (parse_response_rules [("intent", Json.str "ISSUE"), ("keyword", Json.num 3)]).2.2.2.2.2.2.1
     (Json.num 3) rfl (fun s h => Json.noConfusion h),
   (parse_response_rules [("intent", Json.str "ISSUE"), ("keyword", Json.num 3)]).2.2.2.2.2.1
     "ISSUE" rfl (by decide)⟩

/-- C5 counterexample: the filter tests the RAW length, not the trimmed
length.  The message `" a "` has trimmed length 1 < 2, yet with keyword table
`{a ↦ R}` the pipeline runs the keyword matcher and replies — it does not
return silence, refuting the claim as stated for trimmed-short messages. -/
theorem filter_trimmed_cx :
    (pyStrip " a ").length < 2
    ∧ (handle ⟨true, false, [], [⟨"a", "R"⟩], []⟩
        (fun _ => { intent := "IGNORE" }) " a ").result.should_reply = true
    ∧ (handle ⟨true, false, [], [⟨"a", "R"⟩], []⟩
        (fun _ => { intent := "IGNORE" }) " a ").matcherCalled = true :=
  ⟨by decide, by decide, by decide⟩

/-- C5 (amended): for every message whose RAW (untrimmed) length is less than
2 characters, or which begins with "/", `handle` returns silence without
calling the keyword matcher or the classifier. -/
theorem filter_rejects (config : ConfigStore) (classify : String → ClassifyResult)
    (text : String)
    (h : text.length < 2 ∨ startsWithChars text.data "/".data = true) :
    handle config classify text =
      { result := { should_reply := false }
        matcherCalled := false
        classifierCalled := false } := by
  have hig : should_ignore_message text = true := by
    unfold should_ignore_message
    rcases h with h | h
    · simp [h]
    · simp [h]
  simp [handle, hig]

/-- Witness for C5 (amended): "/start" is filtered with no matcher call,
although the keyword "s" does occur in it. -/
theorem filter_rejects_witness :
    handle ⟨true, true, [], [⟨"s", "R"⟩], []⟩ (fun _ => { intent := "IGNORE" }) "/start" =
      { result := { should_reply := false }
        matcherCalled := false
        classifierCalled := false } :=
  filter_rejects _ _ "/start" (Or.inr (by decide))

/-- C2: pipeline keyword short-circuit: for every message that passes the
filter, when the keyword toggle is on and the matcher finds a (non-empty)
keyword, `handle` returns shouldReply = true with that keyword's configured
reply and matchedKeyword set, without invoking the classifier — with no
hypothesis on the AI toggle.  The second conjunct shows the matched keyword
is always present in the keyword table, so `reply_text` is exactly its
configured reply. -/
theorem keyword_short_circuit (config : ConfigStore) (classify : String → ClassifyResult)
    (text kw : String)
    (hig : should_ignore_message text = false)
    (hke : config.keyword_reply_enabled = true)
    (hm : keywordMatch config.keywords text = some kw)
    (hne : kw ≠ "") :
    handle config classify text =
      { result :=
          { should_reply := true
            reply_text := config.get_reply_by_keyword kw
            matched_keyword := some kw }
        matcherCalled := true
        classifierCalled := false }
    ∧ ∃ r, config.get_reply_by_keyword kw = some r := by
  constructor
  · have ht : strTruthy (some kw) = true := by simp [strTruthy, hne]
    simp [handle, hig, hke, hm, ht]
  · apply dictGet_mem_keys
    rcases keywordMatch_mem config.keywords text kw hm with ⟨c, hmem, hck⟩
    exact ⟨(c.keyword, c.reply), List.mem_map_of_mem _ hmem, hck⟩

/-- Witness for C2, the spec's concrete scenario: keywords
`[{tutorial ↦ K-REPLY}]`, intents `[{TUTORIAL ↦ I-REPLY}, {IGNORE ↦ ""}]`,
both toggles on, message "please show tutorial now": `handle` returns
`{shouldReply := true, replyText := K-REPLY, matchedKeyword := tutorial}` and
the classifier is not invoked (even though it would classify TUTORIAL). -/
theorem keyword_short_circuit_witness :
    handle ⟨true, true, [⟨"TUTORIAL", "", "I-REPLY"⟩, ⟨"IGNORE", "", ""⟩],
        [⟨"tutorial", "K-REPLY"⟩], []⟩
      (fun _ => { intent := "TUTORIAL" }) "please show tutorial now" =
      { result :=
          { should_reply := true
            reply_text := some "K-REPLY"
            matched_keyword := some "tutorial" }
        matcherCalled := true
        classifierCalled := false } :=
  ((keyword_short_circuit _ _ "please show tutorial now" "tutorial"
      (by decide) rfl (by decide) (by decide)).1).trans (by decide)

/-- C6: keyword matching order: `match` returns the earliest keyword in
configuration order that occurs as a substring of the text (with every
earlier-configured keyword absent from the text); it returns `none` exactly
when no configured keyword occurs; the empty keyword list always yields no
match; and when every configured keyword is non-empty, the empty text yields
no match. -/
theorem match_earliest_in_order (kws : List KeywordConfig) (text : String) :
    (keywordMatch kws text = none ↔ ∀ c ∈ kws, strContains text c.keyword = false)
    ∧ (∀ kw, keywordMatch kws text = some kw →
        strContains text kw = true
        ∧ ∃ i, ∃ hi : i < kws.length, (kws.get ⟨i, hi⟩).keyword = kw
            ∧ ∀ j, ∀ hj : j < i,
                strContains text (kws.get ⟨j, Nat.lt_trans hj hi⟩).keyword = false)
    ∧ keywordMatch [] text = none
    ∧ ((∀ c ∈ kws, c.keyword ≠ "") → keywordMatch kws "" = none) := by
  refine ⟨keywordMatch_eq_none_iff kws text, ?_, rfl, ?_⟩
  · intro kw h
    induction kws with
    | nil => exact absurd h (by simp [keywordMatch])
    | cons c rest ih =>
      simp only [keywordMatch] at h
      by_cases hc : strContains text c.keyword = true
      · rw [if_pos hc] at h
        obtain rfl : c.keyword = kw := Option.some.inj h
        exact ⟨hc, 0, Nat.succ_pos _, rfl, fun j hj => absurd hj (Nat.not_lt_zero j)⟩
      · rw [if_neg hc] at h
        obtain ⟨hocc, i, hi, hik, hearlier⟩ := ih h
        refine ⟨hocc, i + 1, Nat.succ_lt_succ hi, hik, ?_⟩
        intro j hj
        cases j with
        | zero =>
          rw [Bool.not_eq_true] at hc
          exact hc
        | succ j' => exact hearlier j' (Nat.lt_of_succ_lt_succ hj)
  · intro hall
    rw [keywordMatch_eq_none_iff]
    intro c hmem
    exact strContains_empty_text c.keyword (hall c hmem)

/-- Witness for C6: in the table `[ab ↦ r1, cd ↦ r2]` the text "xxcdzz"
matches `cd` (which indeed occurs in it), and with all keywords non-empty the
empty text matches nothing. -/
theorem match_earliest_in_order_witness :
    strContains "xxcdzz" "cd" = true
    ∧ keywordMatch [⟨"ab", "r1"⟩, ⟨"cd", "r2"⟩] "" = none :=
  ⟨((match_earliest_in_order [⟨"ab", "r1"⟩, ⟨"cd", "r2"⟩] "xxcdzz").2.1 "cd" (by decide)).1,
   (match_earliest_in_order [⟨"ab", "r1"⟩, ⟨"cd", "r2"⟩] "").2.2.2 (by decide)⟩

/-- Loop invariant of the retry loop: entered at index `attempt = a` with
`fuel` iterations left (`a + fuel = max_retries + 1`), it makes at most
`fuel` attempts, at least one when fuel remains, sleeps exactly the backoff
delays of its non-final failed attempts, stops at the first success, and
exhausts all iterations when every attempt fails. -/
theorem runRetry_spec (send : Nat → Bool) (d : ℚ) (mr : Nat) :
    ∀ fuel a, a + fuel = mr + 1 →
      (runRetry send d mr a fuel).attempts ≤ fuel
      ∧ (0 < fuel → 0 < (runRetry send d mr a fuel).attempts)
      ∧ (runRetry send d mr a fuel).waits
          = (List.range ((runRetry send d mr a fuel).attempts - 1)).map
              (fun i => d * 2 ^ (a + i))
      ∧ (∀ k, k < fuel → send (a + k) = true → (∀ j, j < k → send (a + j) = false) →
          (runRetry send d mr a fuel).attempts = k + 1
          ∧ (runRetry send d mr a fuel).success = true)
      ∧ ((∀ i, i < fuel → send (a + i) = false) →
          (runRetry send d mr a fuel).attempts = fuel
          ∧ (runRetry send d mr a fuel).success = false) := by
  intro fuel
  induction fuel with
  | zero =>
    intro a ha
    refine ⟨Nat.le_refl _, by omega, by simp [runRetry], ?_, fun _ => ⟨rfl, rfl⟩⟩
    intro k hk
    omega
  | succ fuel ih =>
    intro a ha
    by_cases hs : send a = true
    · have hrun : runRetry send d mr a (fuel + 1) =
          { attempts := 1, success := true, waits := [] } := by
        simp [runRetry, hs]
      rw [hrun]
      refine ⟨by show (1 : ℕ) ≤ fuel + 1; omega, fun _ => by show (0 : ℕ) < 1; omega,
        by simp, ?_, ?_⟩
      · intro k hk hsk hbefore
        cases k with
        | zero => exact ⟨rfl, rfl⟩
        | succ k' =>
          have h0 : send (a + 0) = false := hbefore 0 (Nat.succ_pos k')
          rw [Nat.add_zero] at h0
          rw [hs] at h0
          cases h0
      · intro hall
        have h0 : send (a + 0) = false := hall 0 (Nat.succ_pos fuel)
        rw [Nat.add_zero] at h0
        rw [hs] at h0
        cases h0
    · have hs' : send a = false := by
        rw [Bool.not_eq_true] at hs
        exact hs
      obtain ⟨h1, h2, h3, h4, h5⟩ := ih (a + 1) (by omega)
      have hrun : runRetry send d mr a (fuel + 1) =
          { attempts := (runRetry send d mr (a + 1) fuel).attempts + 1
            success := (runRetry send d mr (a + 1) fuel).success
            waits := (if a < mr then [d * 2 ^ a] else [])
                       ++ (runRetry send d mr (a + 1) fuel).waits } := by
        simp [runRetry, hs']
      rw [hrun]
      refine ⟨by simpa using Nat.succ_le_succ h1, fun _ => Nat.succ_pos _, ?_, ?_, ?_⟩
      · rcases Nat.eq_zero_or_pos fuel with hf | hf
        · subst hf
          have hz : runRetry send d mr (a + 1) 0 =
              { attempts := 0, success := false, waits := [] } := rfl
          have ham : ¬(a < mr) := by omega
          simp [hz, ham]
        · have halt : a < mr := by omega
          obtain ⟨m, hm⟩ := Nat.exists_eq_add_of_lt (h2 hf)
          rw [Nat.zero_add] at hm
          rw [h3, hm]
          simp only [Nat.add_sub_cancel, Nat.succ_sub_one, if_pos halt,
            List.singleton_append, List.range_succ_eq_map, List.map_cons,
            List.map_map, Nat.add_zero]
          congr 1
          apply List.map_congr_left
          intro i _
          simp only [Function.comp_apply]
          rw [show a + 1 + i = a + i.succ from by omega]
      · intro k hk hsk hbefore
        cases k with
        | zero =>
          rw [Nat.add_zero] at hsk
          rw [hsk] at hs'
          cases hs'
        | succ k' =>
          have hres := h4 k' (Nat.lt_of_succ_lt_succ hk)
            (by rw [show a + 1 + k' = a + (k' + 1) by omega]; exact hsk)
            (fun j hj => by
              rw [show a + 1 + j = a + (j + 1) by omega]
              exact hbefore (j + 1) (Nat.succ_lt_succ hj))
          exact ⟨by rw [hres.1], hres.2⟩
      · intro hall
        have hres := h5 (fun i hi => by
          rw [show a + 1 + i = a + (i + 1) by omega]
          exact hall (i + 1) (Nat.succ_lt_succ hi))
        exact ⟨by rw [hres.1], hres.2⟩

/-- C9: bounded delivery retry: at most `max_retries + 1` send attempts are
made; the delays slept between attempts are exactly `retry_delay * 2 ^
attemptIndex` for each non-final failed attempt, in order; the loop stops at
the first success (first success at attempt `k` means exactly `k + 1`
attempts); and when every attempt fails, exactly `max_retries + 1` attempts
occur and the outcome records the swallowed failure (`success = false` — the
function still returns, modelling that no exception propagates). -/
theorem delivery_retry_bounded (send : Nat → Bool) (mr : Nat) (d : ℚ) :
    (send_reply_with_retry send mr d).attempts ≤ mr + 1
    ∧ (send_reply_with_retry send mr d).waits
        = (List.range ((send_reply_with_retry send mr d).attempts - 1)).map
            (fun i => d * 2 ^ i)
    ∧ (∀ k, k ≤ mr → send k = true → (∀ j, j < k → send j = false) →
        (send_reply_with_retry send mr d).attempts = k + 1
        ∧ (send_reply_with_retry send mr d).success = true)
    ∧ ((∀ i, i ≤ mr → send i = false) →
        (send_reply_with_retry send mr d).attempts = mr + 1
        ∧ (send_reply_with_retry send mr d).success = false) := by
  obtain ⟨h1, h2, h3, h4, h5⟩ := runRetry_spec send d mr (mr + 1) 0 (by omega)
  refine ⟨h1, by simpa using h3, ?_, ?_⟩
  · intro k hk hsk hbefore
    exact h4 k (by omega) (by simpa using hsk)
      (fun j hj => by simpa using hbefore j hj)
  · intro hall
    exact h5 (fun i hi => by simpa using hall i (by omega))

/-- Witness for C9 with the defaults `max_retries = 2`, `retry_delay = 0.5`:
a send that fails twice then succeeds makes exactly 3 attempts, succeeds, and
sleeps 0.5 then 1.0 between the attempts; a send that always fails makes
exactly `max_retries + 1 = 3` attempts and ends in the swallowed-failure
outcome. -/
theorem delivery_retry_bounded_witness :
    (send_reply_with_retry (fun i => decide (2 ≤ i)) 2 (1 / 2)).attempts = 3
    ∧ (send_reply_with_retry (fun i => decide (2 ≤ i)) 2 (1 / 2)).success = true
    ∧ (send_reply_with_retry (fun i => decide (2 ≤ i)) 2 (1 / 2)).waits = [1 / 2, 1]
    ∧ (send_reply_with_retry (fun _ => false) 2 (1 / 2)).attempts = 3
    ∧ (send_reply_with_retry (fun _ => false) 2 (1 / 2)).success = false := by
  obtain ⟨-, hw, hs, -⟩ := delivery_retry_bounded (fun i => decide (2 ≤ i)) 2 (1 / 2)
  obtain ⟨ha, hsucc⟩ := hs 2 (by omega) (by decide)
    (fun j hj => by
      simp only [decide_eq_false_iff_not]
      omega)
  obtain ⟨-, -, -, hf⟩ := delivery_retry_bounded (fun _ => false) 2 (1 / 2)
  obtain ⟨hfa, hfs⟩ := hf (fun i _ => rfl)
  refine ⟨ha, hsucc, ?_, hfa, hfs⟩
  rw [hw, ha]
  norm_num [List.range_succ]

/-- C10: empty-reply asymmetry between the two phases: (1) when the keyword
toggle is on and the matcher hits a keyword whose configured reply is the
empty string, `handle` still returns shouldReply = true with that empty
reply text; (2) in the classification phase (reached after a keyword miss or
with the keyword toggle off), `handle` returns shouldReply = false whenever
the resolved reply is empty or `none`; (3) the configuration loader accepts
a keyword rule with an empty reply, so case (1) is reachable from a valid
configuration. -/
theorem empty_reply_asymmetry (config : ConfigStore) (classify : String → ClassifyResult)
    (text kw : String) :
    (should_ignore_message text = false → config.keyword_reply_enabled = true →
      keywordMatch config.keywords text = some kw → kw ≠ "" →
      config.get_reply_by_keyword kw = some "" →
      (handle config classify text).result.should_reply = true
      ∧ (handle config classify text).result.reply_text = some "")
    ∧ (should_ignore_message text = false → config.ai_reply_enabled = true →
      strTruthy (if config.keyword_reply_enabled then
          keywordMatch config.keywords text else none) = false →
      strTruthy (ReplyManager.get_reply config (classify text)) = false →
      (handle config classify text).result.should_reply = false)
    ∧ parse_keywords [Json.obj [("keyword", Json.str "k"), ("reply", Json.str "")]]
        = Except.ok [{ keyword := "k", reply := "" }] := by
  refine ⟨?_, ?_, rfl⟩
  · intro hig hke hm hne hr
    have ht : strTruthy (some kw) = true := by simp [strTruthy, hne]
    constructor <;> simp [handle, hig, hke, hm, ht, hr]
  · intro hig hai hmiss hres
    simp [handle, hig, hai, hmiss, hres]

/-- Witness for C10: keyword "hi" is configured with the empty reply, message
"hi there" yields shouldReply = true with reply text ""; with the keyword
toggle off and an empty intent table, a SERVICE classification resolves to
silence and shouldReply = false. -/
theorem empty_reply_asymmetry_witness :
    (handle ⟨true, true, [⟨"TUTORIAL", "", "I"⟩], [⟨"hi", ""⟩], []⟩
        (fun _ => { intent := "TUTORIAL" }) "hi there").result.should_reply = true
    ∧ (handle ⟨true, true, [⟨"TUTORIAL", "", "I"⟩], [⟨"hi", ""⟩], []⟩
        (fun _ => { intent := "TUTORIAL" }) "hi there").result.reply_text = some ""
    ∧ (handle ⟨false, true, [], [], []⟩
        (fun _ => { intent := "SERVICE" }) "hello").result.should_reply = false := by
  refine ⟨?_, ?_, ?_⟩
  · exact ((empty_reply_asymmetry
        ⟨true, true, [⟨"TUTORIAL", "", "I"⟩], [⟨"hi", ""⟩], []⟩
        (fun _ => { intent := "TUTORIAL" }) "hi there" "hi").1
      (by decide) rfl (by decide) (by decide) (by decide)).1
  · exact ((empty_reply_asymmetry
        ⟨true, true, [⟨"TUTORIAL", "", "I"⟩], [⟨"hi", ""⟩], []⟩
        (fun _ => { intent := "TUTORIAL" }) "hi there" "hi").1
      (by decide) rfl (by decide) (by decide) (by decide)).2
  · exact (empty_reply_asymmetry ⟨false, true, [], [], []⟩
        (fun _ => { intent := "SERVICE" }) "hello" "x").2.1
      (by decide) rfl (by decide) (by decide)

end Mogukefu
